import Mathlib

/-!
Verification of the fmailersdk client library (`src/fmailersdk/sdk.py` and
`src/fmailersdk/exceptions.py`), a shallow embedding in Lean 4.

The synchronous operations `send_simple` and `send` perform one HTTP POST
and classify the outcome; the async variants wrap them in a task submitted
to a lazily created thread pool.  We embed:

* the HTTP outcome seen by one call to `requests.post` (a response with an
  `ok` flag and a body `text`, or a raised `requests.exceptions.RequestException`);
* the Python exception values that can flow out of the SDK code, keeping
  the class distinction that the `except exceptions.RequestException`
  clause relies on;
* the control flow of `send_simple` / `send` (try body, the single
  `except` clause, the trailing `return True`);
* the inner `task()` closures of `send_simple_async` / `send_async`,
  including the exact placement of the callback invocations inside and
  outside the `try`;
* the lazy-executor state (`_executor` attribute, the `executor` property,
  `shutdown`), both as an atomic sequential operation and, for the
  concurrency claim, as a two-thread interleaving of the property's
  read-check / create-assign steps.
-/

/-- Outcome of the single `requests.post` call inside `send_simple` / `send`:
either the server answered (with `res.ok` and `res.text`), or the HTTP client
raised a `requests.exceptions.RequestException` (connection error, timeout,
DNS failure, ...). -/
inductive HttpResult where
  | response (ok : Bool) (text : String)
  | transportError (msg : String)
  deriving DecidableEq, Repr

/-- Python exception values relevant to the SDK.  `requestException` is
`requests.exceptions.RequestException`; `fmailerSdkException` is the SDK's
own `FmailerSdkException` (which derives from `Exception`, not from
`RequestException`); `callbackError` stands for an arbitrary exception
raised by a user-supplied callback. -/
inductive PyExc where
  | requestException (msg : String)
  | fmailerSdkException (msg : String)
  | callbackError (msg : String)
  deriving DecidableEq, Repr

/-- Whether an exception is caught by `except exceptions.RequestException`. -/
def PyExc.isRequestException : PyExc → Bool
  | .requestException _ => true
  | _ => false

/-- `FmailerSdkException.__str__` from `exceptions.py`:
`f"FmailerSdkException: {self.msg}"`. -/
def fmailerSdkExceptionStr (msg : String) : String :=
  "FmailerSdkException: " ++ msg

/-- Body of the `try` block of `FmailerSdk.send_simple` (sdk.py lines
82-106), with logging elided: `requests.post` may raise a
`RequestException`; otherwise `if not res.ok: raise FmailerSdkException(res.text)`. -/
def send_simple_tryBody (http : HttpResult) : Except PyExc Unit :=
  match http with
  | .transportError msg => .error (.requestException msg)
  | .response ok text => if !ok then .error (.fmailerSdkException text) else .ok ()

/-- Body of the `try` block of `FmailerSdk.send` (sdk.py lines 131-155):
identical control flow, with `raise FmailerSdkException(str(res.text))`
(`str` of a string is the string itself). -/
def send_tryBody (http : HttpResult) : Except PyExc Unit :=
  match http with
  | .transportError msg => .error (.requestException msg)
  | .response ok text => if !ok then .error (.fmailerSdkException (toString text)) else .ok ()

/-- The `except exceptions.RequestException` clause shared by `send_simple`
and `send` (sdk.py lines 107-110 and 156-159) followed by the trailing
`return True`: a `RequestException` is swallowed when `fail_silently` is
set (falling through to `return True`) and otherwise re-raised as
`FmailerSdkException("Fmailer API error")`; any other exception escapes
uncaught. -/
def handleSendExc (fail_silently : Bool) (body : Except PyExc Unit) : Except PyExc Bool :=
  match body with
  | .ok () => .ok true
  | .error e =>
      if e.isRequestException then
        if !fail_silently then .error (.fmailerSdkException "Fmailer API error")
        else .ok true
      else .error e

/-- `FmailerSdk.send_simple` (sdk.py lines 66-111) as a function of the
`fail_silently` flag and the HTTP outcome of its one `requests.post`. -/
def send_simple (fail_silently : Bool) (http : HttpResult) : Except PyExc Bool :=
  handleSendExc fail_silently (send_simple_tryBody http)

/-- `FmailerSdk.send` (sdk.py lines 113-160) as a function of the
`fail_silently` flag and the HTTP outcome of its one `requests.post`. -/
def send (fail_silently : Bool) (http : HttpResult) : Except PyExc Bool :=
  handleSendExc fail_silently (send_tryBody http)

/-- A user callback: given `(success, error-or-None)` it either returns
normally (`none`) or raises an exception (`some e`). -/
structure CallbackSpec where
  behavior : Bool → Option PyExc → Option PyExc

/-- Observable run of one async `task()`: the value/exception the `Future`
records, and the list of callback invocations in order, each recorded as
the `(success, error)` argument pair it received. -/
structure TaskRun where
  outcome : Except PyExc Bool
  calls : List (Bool × Option PyExc)
  deriving Repr

/-- The inner `task()` closure of `send_simple_async` (sdk.py lines
204-224) and of `send_async` (lines 272-293), which are textually
identical up to the wrapped synchronous call:

```
try:
    result = <sync send>
    if callback: callback(result, None)
    return result
except Exception as e:
    if callback: callback(False, e)
    raise
```

Note the success-path callback invocation sits inside the `try`, so a
callback that raises there is caught and the callback is invoked again by
the handler; a handler-path callback that raises pre-empts the final
`raise`. -/
def runTask (sendResult : Except PyExc Bool) (callback : Option CallbackSpec) : TaskRun :=
  match sendResult with
  | .ok result =>
      match callback with
      | none => { outcome := .ok result, calls := [] }
      | some cb =>
          match cb.behavior result none with
          | none => { outcome := .ok result, calls := [(result, none)] }
          | some e =>
              match cb.behavior false (some e) with
              | none => { outcome := .error e, calls := [(result, none), (false, some e)] }
              | some e2 => { outcome := .error e2, calls := [(result, none), (false, some e)] }
  | .error e =>
      match callback with
      | none => { outcome := .error e, calls := [] }
      | some cb =>
          match cb.behavior false (some e) with
          | none => { outcome := .error e, calls := [(false, some e)] }
          | some e2 => { outcome := .error e2, calls := [(false, some e)] }

/-- The task submitted by `FmailerSdk.send_simple_async`. -/
def send_simple_async_task (fail_silently : Bool) (http : HttpResult)
    (callback : Option CallbackSpec) : TaskRun :=
  runTask (send_simple fail_silently http) callback

/-- The task submitted by `FmailerSdk.send_async`. -/
def send_async_task (fail_silently : Bool) (http : HttpResult)
    (callback : Option CallbackSpec) : TaskRun :=
  runTask (send fail_silently http) callback

/-- The executor-related state of one `FmailerSdk` instance: the
`_executor` attribute (identified by a numeric id, `none` when
uninitialized), a counter supplying fresh ids, and the number of
`ThreadPoolExecutor` instances created so far. -/
structure SdkState where
  _executor : Option Nat
  nextId : Nat
  createdCount : Nat
  deriving DecidableEq, Repr

/-- State established by `FmailerSdk.__init__` (sdk.py lines 36-64): the
constructor never touches `_executor`, which therefore keeps its class
default `None`. -/
def FmailerSdk.init : SdkState :=
  { _executor := none, nextId := 0, createdCount := 0 }

/-- The `executor` property (sdk.py lines 28-34) run as one atomic call:
`if self._executor is None: self._executor = ThreadPoolExecutor(...)`,
then `return self._executor`. -/
def executorGet (s : SdkState) : Nat × SdkState :=
  match s._executor with
  | some e => (e, s)
  | none => (s.nextId,
      { _executor := some s.nextId, nextId := s.nextId + 1,
        createdCount := s.createdCount + 1 })

/-- `FmailerSdk.shutdown` (sdk.py lines 297-308): when `_executor` is not
`None`, shut it down and set `_executor = None`; otherwise do nothing. -/
def shutdown (s : SdkState) : SdkState :=
  match s._executor with
  | some _ => { s with _executor := none }
  | none => s

/-- Program counter of one thread executing the body of the `executor`
property, at the granularity at which the interpreter can switch threads:
`start` = about to evaluate `self._executor is None`; `sawNone` = the check
saw `None`, about to construct and assign; `done` = finished. -/
inductive ExecPc where
  | start
  | sawNone
  | done
  deriving DecidableEq, Repr

/-- Pool-related shared state for the interleaving model. -/
structure PoolState where
  _executor : Option Nat
  created : Nat
  deriving DecidableEq, Repr

/-- Two caller threads, each at some point of the `executor` property. -/
structure ConcState where
  pool : PoolState
  pcA : ExecPc
  pcB : ExecPc
  deriving DecidableEq, Repr

/-- Thread identifiers for the two-thread interleaving model. -/
inductive Tid where
  | A
  | B
  deriving DecidableEq, Repr

/-- One atomic step of a thread inside the `executor` property: the
`is None` check, or (after a check that saw `None`) the
construct-and-assign.  There is no lock in the source (sdk.py lines
31-33), so between the two steps the other thread may run. -/
def stepPc : ExecPc → PoolState → ExecPc × PoolState
  | .start, p =>
      match p._executor with
      | none => (.sawNone, p)
      | some _ => (.done, p)
  | .sawNone, p => (.done, { _executor := some p.created, created := p.created + 1 })
  | .done, p => (.done, p)

/-- Advance the scheduled thread by one atomic step. -/
def concStep (s : ConcState) : Tid → ConcState
  | .A =>
      let r := stepPc s.pcA s.pool
      { s with pcA := r.1, pool := r.2 }
  | .B =>
      let r := stepPc s.pcB s.pool
      { s with pcB := r.1, pool := r.2 }

/-- Run a schedule (a list of thread ids, each entry granting one atomic
step to that thread). -/
def concRun (s : ConcState) (sched : List Tid) : ConcState :=
  sched.foldl concStep s

/-- Both threads about to make their first call on a freshly constructed
instance (`_executor` is `None`, no pool created yet). -/
def concInit : ConcState :=
  { pool := { _executor := none, created := 0 }, pcA := .start, pcB := .start }

/-- `n` successive atomic (non-overlapping) calls of the `executor`
property. -/
def seqCalls : Nat → SdkState → SdkState
  | 0, s => s
  | n + 1, s => seqCalls n (executorGet s).2

/-! ## Helper lemmas -/

/-- After the first atomic `executor` call on a fresh instance the state is
fixed: one pool with id 0, counter at 1. -/
lemma executorGet_init :
    (executorGet FmailerSdk.init).2 =
      { _executor := some 0, nextId := 1, createdCount := 1 } := rfl

lemma seqCalls_fixed (n : Nat) :
    seqCalls n { _executor := some 0, nextId := 1, createdCount := 1 } =
      { _executor := some 0, nextId := 1, createdCount := 1 } := by
  induction n with
  | zero => rfl
  | succ k ih => simpa [seqCalls, executorGet] using ih

/-! ## Claims -/

/-- C1 counterexample: with `fail_silently = true`, an API error (the
backend responds with a non-success status and body `"err"`) does NOT
yield `True` from `send_simple`; the raised `FmailerSdkException` is not a
`requests.exceptions.RequestException`, so the `except` clause does not
suppress it. -/
theorem C1_counterexample :
    send_simple true (HttpResult.response false "err") ≠ Except.ok true ∧
    send_simple true (HttpResult.response false "err") =
      Except.error (PyExc.fmailerSdkException "err") ∧
    send true (HttpResult.response false "err") =
      Except.error (PyExc.fmailerSdkException "err") := by
  refine ⟨fun h => ?_, rfl, rfl⟩
  exact nomatch h

/-- C1 (amended): with `fail_silently = true`, a transport-level failure is
suppressed and `send_simple` / `send` return `True`; an API error
(non-success status) raises `FmailerSdkException` regardless of
`fail_silently`, because that exception is not caught by the
`except exceptions.RequestException` clause. -/
theorem C1_amended (msg text : String) (fs : Bool) :
    send_simple true (HttpResult.transportError msg) = Except.ok true ∧
    send true (HttpResult.transportError msg) = Except.ok true ∧
    send_simple fs (HttpResult.response false text) =
      Except.error (PyExc.fmailerSdkException text) ∧
    send fs (HttpResult.response false text) =
      Except.error (PyExc.fmailerSdkException text) :=
  ⟨rfl, rfl, rfl, rfl⟩

/-- C2: whenever the backend responds with a non-success status, the
synchronous call raises `FmailerSdkException` whose message is exactly the
response body, the async task records that very exception in its handle,
and the exception's string form contains the body verbatim. -/
theorem C2_apiError_detail (fs : Bool) (text : String) :
    send_simple fs (HttpResult.response false text) =
      Except.error (PyExc.fmailerSdkException text) ∧
    send fs (HttpResult.response false text) =
      Except.error (PyExc.fmailerSdkException text) ∧
    (send_simple_async_task fs (HttpResult.response false text) none).outcome =
      Except.error (PyExc.fmailerSdkException text) ∧
    (send_async_task fs (HttpResult.response false text) none).outcome =
      Except.error (PyExc.fmailerSdkException text) ∧
    (∃ pre, fmailerSdkExceptionStr text = pre ++ text) :=
  ⟨rfl, rfl, rfl, rfl, "FmailerSdkException: ", rfl⟩

/-- A callback that always returns normally (used as a concrete witness). -/
def quietCb : CallbackSpec := ⟨fun _ _ => none⟩

/-- A callback that raises on its success invocation (`success = true`) and
returns normally otherwise. -/
def raisingCb : CallbackSpec :=
  ⟨fun success _ => if success then some (PyExc.callbackError "boom") else none⟩

/-- A task whose callback never raises makes exactly one callback
invocation and leaves the wrapped result untouched. -/
lemma runTask_quiet (r : Except PyExc Bool) (cb : CallbackSpec)
    (h : ∀ b oe, cb.behavior b oe = none) :
    runTask r (some cb) =
      match r with
      | .ok v => { outcome := .ok v, calls := [(v, none)] }
      | .error e => { outcome := .error e, calls := [(false, some e)] } := by
  cases r with
  | ok v => simp [runTask, h]
  | error e => simp [runTask, h]

/-- `send_simple` never produces the value `False`. -/
lemma send_simple_ok_imp_true (fs : Bool) (http : HttpResult) (b : Bool)
    (h : send_simple fs http = Except.ok b) : b = true := by
  cases http with
  | response ok text =>
      cases ok <;> cases fs <;>
        simp_all [send_simple, send_simple_tryBody, handleSendExc, PyExc.isRequestException]
  | transportError msg =>
      cases fs <;>
        simp_all [send_simple, send_simple_tryBody, handleSendExc, PyExc.isRequestException]

/-- `send` never produces the value `False`. -/
lemma send_ok_imp_true (fs : Bool) (http : HttpResult) (b : Bool)
    (h : send fs http = Except.ok b) : b = true := by
  cases http with
  | response ok text =>
      cases ok <;> cases fs <;>
        simp_all [send, send_tryBody, handleSendExc, PyExc.isRequestException]
  | transportError msg =>
      cases fs <;>
        simp_all [send, send_tryBody, handleSendExc, PyExc.isRequestException]

/-- C3: when the backend responds with a success status, `send_simple` and
`send` return `True` (for either value of `fail_silently`), and the async
tasks record `True` in the handle with no error — both with no callback
and with any callback whose success invocation returns normally. -/
theorem C3_success_resolves_true (fs : Bool) (text : String) (cb : CallbackSpec)
    (h : cb.behavior true none = none) :
    send_simple fs (HttpResult.response true text) = Except.ok true ∧
    send fs (HttpResult.response true text) = Except.ok true ∧
    (send_simple_async_task fs (HttpResult.response true text) none).outcome =
      Except.ok true ∧
    (send_async_task fs (HttpResult.response true text) none).outcome =
      Except.ok true ∧
    (send_simple_async_task fs (HttpResult.response true text) (some cb)).outcome =
      Except.ok true ∧
    (send_async_task fs (HttpResult.response true text) (some cb)).outcome =
      Except.ok true := by
  refine ⟨rfl, rfl, rfl, rfl, ?_, ?_⟩ <;>
    simp [send_simple_async_task, send_async_task, runTask, send_simple, send,
      send_simple_tryBody, send_tryBody, handleSendExc, h]

/-- C3 witness: concrete success response, `fail_silently = false`, and the
always-quiet callback. -/
theorem C3_success_resolves_true_witness :
    quietCb.behavior true none = none ∧
    (send_simple false (HttpResult.response true "sent") = Except.ok true ∧
      send false (HttpResult.response true "sent") = Except.ok true ∧
      (send_simple_async_task false (HttpResult.response true "sent") none).outcome =
        Except.ok true ∧
      (send_async_task false (HttpResult.response true "sent") none).outcome =
        Except.ok true ∧
      (send_simple_async_task false (HttpResult.response true "sent") (some quietCb)).outcome =
        Except.ok true ∧
      (send_async_task false (HttpResult.response true "sent") (some quietCb)).outcome =
        Except.ok true) :=
  ⟨rfl, C3_success_resolves_true false "sent" quietCb rfl⟩

/-- C4: with `fail_silently = false`, a transport-level failure raises
`FmailerSdkException("Fmailer API error")` from the synchronous call; on
the async path the callback is invoked with `(False, e)` and the handle
records that very same exception `e`, for any callback whose failure
invocation returns normally. -/
theorem C4_transport_error_loud (msg : String) (cb : CallbackSpec)
    (h : ∀ oe, cb.behavior false oe = none) :
    send_simple false (HttpResult.transportError msg) =
      Except.error (PyExc.fmailerSdkException "Fmailer API error") ∧
    send false (HttpResult.transportError msg) =
      Except.error (PyExc.fmailerSdkException "Fmailer API error") ∧
    (send_simple_async_task false (HttpResult.transportError msg) (some cb)).calls =
      [(false, some (PyExc.fmailerSdkException "Fmailer API error"))] ∧
    (send_simple_async_task false (HttpResult.transportError msg) (some cb)).outcome =
      Except.error (PyExc.fmailerSdkException "Fmailer API error") ∧
    (send_async_task false (HttpResult.transportError msg) (some cb)).calls =
      [(false, some (PyExc.fmailerSdkException "Fmailer API error"))] ∧
    (send_async_task false (HttpResult.transportError msg) (some cb)).outcome =
      Except.error (PyExc.fmailerSdkException "Fmailer API error") := by
  refine ⟨rfl, rfl, ?_, ?_, ?_, ?_⟩ <;>
    simp [send_simple_async_task, send_async_task, runTask, send_simple, send,
      send_simple_tryBody, send_tryBody, handleSendExc, PyExc.isRequestException, h]

/-- C4 witness: a concrete connection error with the always-quiet
callback. -/
theorem C4_transport_error_loud_witness :
    (∀ oe, quietCb.behavior false oe = none) ∧
    send_simple false (HttpResult.transportError "conn refused") =
      Except.error (PyExc.fmailerSdkException "Fmailer API error") ∧
    send false (HttpResult.transportError "conn refused") =
      Except.error (PyExc.fmailerSdkException "Fmailer API error") ∧
    (send_simple_async_task false (HttpResult.transportError "conn refused")
        (some quietCb)).calls =
      [(false, some (PyExc.fmailerSdkException "Fmailer API error"))] ∧
    (send_simple_async_task false (HttpResult.transportError "conn refused")
        (some quietCb)).outcome =
      Except.error (PyExc.fmailerSdkException "Fmailer API error") ∧
    (send_async_task false (HttpResult.transportError "conn refused")
        (some quietCb)).calls =
      [(false, some (PyExc.fmailerSdkException "Fmailer API error"))] ∧
    (send_async_task false (HttpResult.transportError "conn refused")
        (some quietCb)).outcome =
      Except.error (PyExc.fmailerSdkException "Fmailer API error") :=
  ⟨fun _ => rfl, C4_transport_error_loud "conn refused" quietCb (fun _ => rfl)⟩

/-- C5: with `fail_silently = true`, a transport-level failure yields
`True` from the synchronous call, and on the async path the handle records
`True` with no error. -/
theorem C5_fail_silently_transport (msg : String) :
    send_simple true (HttpResult.transportError msg) = Except.ok true ∧
    send true (HttpResult.transportError msg) = Except.ok true ∧
    (send_simple_async_task true (HttpResult.transportError msg) none).outcome =
      Except.ok true ∧
    (send_async_task true (HttpResult.transportError msg) none).outcome =
      Except.ok true :=
  ⟨rfl, rfl, rfl, rfl⟩

/-- C6 counterexample: a callback that raises during its success
invocation is invoked TWICE for one submitted task — first with
`(True, None)` inside the `try`, then again with `(False, e)` by the
`except Exception` handler — so "exactly once ... including callbacks that
themselves raise" fails. -/
theorem C6_counterexample :
    (send_simple_async_task false (HttpResult.response true "ok")
        (some raisingCb)).calls =
      [(true, none), (false, some (PyExc.callbackError "boom"))] ∧
    (send_simple_async_task false (HttpResult.response true "ok")
        (some raisingCb)).calls.length ≠ 1 := by
  refine ⟨rfl, ?_⟩
  decide

/-- C6 (amended): when a callback is supplied and the callback itself
never raises, each submitted task (simple or templated) invokes it exactly
once — with `(True, None)` when the wrapped send succeeded and with
`(False, e)` when it raised `e` — and the handle's recorded outcome agrees
with what the callback observed. -/
theorem C6_callback_once (fs : Bool) (http : HttpResult) (cb : CallbackSpec)
    (h : ∀ b oe, cb.behavior b oe = none) :
    (((send_simple_async_task fs http (some cb)).calls = [(true, none)] ∧
        (send_simple_async_task fs http (some cb)).outcome = Except.ok true) ∨
      (∃ e, (send_simple_async_task fs http (some cb)).calls = [(false, some e)] ∧
        (send_simple_async_task fs http (some cb)).outcome = Except.error e)) ∧
    (((send_async_task fs http (some cb)).calls = [(true, none)] ∧
        (send_async_task fs http (some cb)).outcome = Except.ok true) ∨
      (∃ e, (send_async_task fs http (some cb)).calls = [(false, some e)] ∧
        (send_async_task fs http (some cb)).outcome = Except.error e)) := by
  constructor
  · cases hv : send_simple fs http with
    | ok v =>
        have hb := send_simple_ok_imp_true fs http v hv
        subst hb
        left
        simp only [send_simple_async_task, runTask_quiet _ _ h, hv]
        exact ⟨trivial, trivial⟩
    | error e =>
        right
        refine ⟨e, ?_, ?_⟩ <;> simp only [send_simple_async_task, runTask_quiet _ _ h, hv]
  · cases hv : send fs http with
    | ok v =>
        have hb := send_ok_imp_true fs http v hv
        subst hb
        left
        simp only [send_async_task, runTask_quiet _ _ h, hv]
        exact ⟨trivial, trivial⟩
    | error e =>
        right
        refine ⟨e, ?_, ?_⟩ <;> simp only [send_async_task, runTask_quiet _ _ h, hv]

/-- C6 witness: the always-quiet callback on a concrete successful
request. -/
theorem C6_callback_once_witness :
    (∀ b oe, quietCb.behavior b oe = none) ∧
    ((((send_simple_async_task false (HttpResult.response true "ok")
          (some quietCb)).calls = [(true, none)] ∧
        (send_simple_async_task false (HttpResult.response true "ok")
          (some quietCb)).outcome = Except.ok true) ∨
      (∃ e, (send_simple_async_task false (HttpResult.response true "ok")
          (some quietCb)).calls = [(false, some e)] ∧
        (send_simple_async_task false (HttpResult.response true "ok")
          (some quietCb)).outcome = Except.error e)) ∧
    (((send_async_task false (HttpResult.response true "ok")
          (some quietCb)).calls = [(true, none)] ∧
        (send_async_task false (HttpResult.response true "ok")
          (some quietCb)).outcome = Except.ok true) ∨
      (∃ e, (send_async_task false (HttpResult.response true "ok")
          (some quietCb)).calls = [(false, some e)] ∧
        (send_async_task false (HttpResult.response true "ok")
          (some quietCb)).outcome = Except.error e))) :=
  ⟨fun _ _ => rfl,
    C6_callback_once false (HttpResult.response true "ok") quietCb (fun _ _ => rfl)⟩

/-- C7: the constructor leaves `_executor` as `None` and creates no pool;
the pool comes into existence exactly at the first `executor` access (as
performed by the first submission). -/
theorem C7_lazy_pool_creation :
    FmailerSdk.init._executor = none ∧
    FmailerSdk.init.createdCount = 0 ∧
    ((executorGet FmailerSdk.init).2)._executor = some 0 ∧
    (executorGet FmailerSdk.init).2.createdCount = 1 :=
  ⟨rfl, rfl, rfl, rfl⟩

/-- C8: `shutdown` always leaves `_executor = None`; on a dispatcher whose
pool was never created it is a no-op; and a subsequent `executor` access
(as performed by `submit`) succeeds by lazily creating one fresh pool. -/
theorem C8_shutdown_clears_and_revives (s : SdkState) :
    (shutdown s)._executor = none ∧
    (s._executor = none → shutdown s = s) ∧
    ((executorGet (shutdown s)).2)._executor = some s.nextId ∧
    (executorGet (shutdown s)).2.createdCount = s.createdCount + 1 := by
  rcases s with ⟨ex, ni, cc⟩
  cases ex <;> simp [shutdown, executorGet]

/-- C8 witness: the state after one lazy creation on a fresh instance. -/
theorem C8_shutdown_clears_and_revives_witness :
    (shutdown (executorGet FmailerSdk.init).2)._executor = none ∧
    ((executorGet FmailerSdk.init).2._executor = none →
      shutdown (executorGet FmailerSdk.init).2 = (executorGet FmailerSdk.init).2) ∧
    ((executorGet (shutdown (executorGet FmailerSdk.init).2)).2)._executor =
      some (executorGet FmailerSdk.init).2.nextId ∧
    (executorGet (shutdown (executorGet FmailerSdk.init).2)).2.createdCount =
      (executorGet FmailerSdk.init).2.createdCount + 1 :=
  C8_shutdown_clears_and_revives (executorGet FmailerSdk.init).2

/-- C9 counterexample: the `executor` property guards creation with a
passive, unsynchronized `is None` check, so the interleaving in which both
threads pass the check before either assigns (schedule A-check, B-check,
A-create, B-create) creates TWO pool instances, refuting "at most one pool
instance is ever created for every interleaving of concurrent first
submissions". -/
theorem C9_counterexample :
    (concRun concInit [Tid.A, Tid.B, Tid.A, Tid.B]).pool.created = 2 ∧
    ¬ (concRun concInit [Tid.A, Tid.B, Tid.A, Tid.B]).pool.created ≤ 1 := by
  exact ⟨rfl, by decide⟩

/-- C9 (amended): lazy creation is guarded only by a passive null check;
under sequential (non-overlapping) calls at most one pool is ever created
per instance, but there exists an interleaving of two concurrent first
calls that creates more than one pool. -/
theorem C9_null_check_not_synchronized :
    (∀ n : Nat, (seqCalls n FmailerSdk.init).createdCount ≤ 1) ∧
    (∃ sched : List Tid, ¬ (concRun concInit sched).pool.created ≤ 1) := by
  constructor
  · intro n
    cases n with
    | zero => decide
    | succ k =>
        have h1 : seqCalls (k + 1) FmailerSdk.init =
            seqCalls k (executorGet FmailerSdk.init).2 := rfl
        rw [h1, executorGet_init, seqCalls_fixed]
  · exact ⟨[Tid.A, Tid.B, Tid.A, Tid.B], by decide⟩

/-- C10: whenever `send_simple` or `send` returns normally, the returned
value is `True`; neither ever returns `False`, for any `fail_silently`
setting and any backend behavior. -/
theorem C10_never_returns_false (fs : Bool) (http : HttpResult) :
    send_simple fs http ≠ Except.ok false ∧
    send fs http ≠ Except.ok false ∧
    (∀ b, send_simple fs http = Except.ok b → b = true) ∧
    (∀ b, send fs http = Except.ok b → b = true) := by
  refine ⟨?_, ?_, send_simple_ok_imp_true fs http, send_ok_imp_true fs http⟩
  · intro h
    exact Bool.false_ne_true (send_simple_ok_imp_true fs http false h)
  · intro h
    exact Bool.false_ne_true (send_ok_imp_true fs http false h)

/-- C10 witness: a silent transport failure returns exactly `True`. -/
theorem C10_never_returns_false_witness :
    send true (HttpResult.transportError "timeout") = Except.ok true ∧ true = true :=
  ⟨rfl, (C10_never_returns_false true (HttpResult.transportError "timeout")).2.2.2 true rfl⟩
